import Mathlib

/-!
Verification of the AlphaStyle/router request-dispatch layer.

The definitions below are a shallow embedding of the final iteration of the
router (the version with `Group`, `Use`, `handleRequest`, `handleMiddleware`,
`Gzip`, `JSON`, `NewSession`, `DeleteSession`).  Middleware and handlers are
Go function values; we identify each by a numeric id and record an event
trace of their invocations.  The shared `*mux` (Go `http.ServeMux` plus the
global middleware slice) and the heap of `Group` objects are modelled as an
explicit `RouterState`; group references are indices into that heap, which
mirrors Go pointer sharing: mutating the global chain through any group
reference is visible to every other group.  Wall-clock time and the
crypto-random entropy consumed by the UUID generator are passed in
explicitly.
-/

namespace Router

/-- Whether `sub` occurs as a contiguous run starting at some position of
the second list. -/
def hasSubList (sub : List Char) : List Char → Bool
  | [] => sub.isPrefixOf ([] : List Char)
  | c :: rest => sub.isPrefixOf (c :: rest) || hasSubList sub rest

/-- Go `strings.Contains s sub`: `sub` occurs as a substring of `s`. -/
def goContains (s sub : String) : Bool :=
  hasSubList sub.toList s.toList

/-- Go `strings.HasPrefix s pre`: `s` begins with `pre`. -/
def goStartsWith (s pre : String) : Bool :=
  pre.toList.isPrefixOf s.toList

/-- Go `pattern[len(pattern)-1] == c` style suffix test: `s` ends with
`suf`. -/
def goHasSuffix (s suf : String) : Bool :=
  suf.toList.reverse.isPrefixOf s.toList.reverse

/-- Identifier of a middleware (a Go `handlerFunc` value). -/
abbrev MWId := Nat

/-- One Group object (`type Group struct`): its path prefix and its own
middleware chain.  The shared `*mux` lives in `RouterState`. -/
structure GroupData where
  pfx : String
  middleware : List MWId
deriving Repr, DecidableEq

/-- What `GET`/`POST` install in the `ServeMux` for one pattern: the
required method, the registering group (the closure captures `g`), and the
user handler. -/
structure RouteEntry where
  method : String
  groupId : Nat
  handlerId : Nat
deriving Repr, DecidableEq

/-- The whole router: the shared mux (`middle` = global chain, `routes` =
the `ServeMux` table), the heap of Group objects, and the `logger.Error`
sink. -/
structure RouterState where
  middle : List MWId
  groups : List GroupData
  routes : List (String × RouteEntry)
  errLog : List String
deriving Repr, DecidableEq

/-- `New()`: a fresh router whose only group is the root (empty prefix,
no middleware), with an empty global chain and an empty route table. -/
def New : RouterState :=
  { middle := [], groups := [⟨"", []⟩], routes := [], errLog := [] }

/-- The reference to the root group created by `New()`. -/
def rootRef : Nat := 0

/-- Dereference a group pointer (out-of-range yields a zero Group, which
never arises for references produced by `New`/`Group`). -/
def getGroup (st : RouterState) (g : Nat) : GroupData :=
  st.groups.getD g ⟨"", []⟩

/-- `(g *Group) Use(h ...handlerFunc)`: when `g.prefix == ""` append to the
global chain, otherwise append to the group's own chain. -/
def Use (st : RouterState) (g : Nat) (hs : List MWId) : RouterState :=
  if (getGroup st g).pfx = "" then
    { st with middle := st.middle ++ hs }
  else
    { st with
      groups := st.groups.set g
        ⟨(getGroup st g).pfx, (getGroup st g).middleware ++ hs⟩ }

/-- The message `(g *Group) Group` hands to `logger.Error` on a bad
pattern. -/
def groupErrorMsg : String :=
  "Url pattern can't be empty and has to start with / (slash)!"

/-- `(g *Group) Group(pattern, h...)`: allocate a new group sharing the
mux; on a valid pattern seed its prefix and chain, otherwise log the error
and leave the new group zero-valued.  Returns the new state and the
reference to the new group. -/
def Group (st : RouterState) (pattern : String) (hs : List MWId) :
    RouterState × Nat :=
  if pattern ≠ "" ∧ goStartsWith pattern "/" then
    ({ st with groups := st.groups ++ [⟨pattern, hs⟩] }, st.groups.length)
  else
    ({ st with groups := st.groups ++ [⟨"", []⟩],
               errLog := st.errLog ++ [groupErrorMsg] },
     st.groups.length)

/-- `(g *Group) GET(pattern, h)`: register `g.prefix+pattern` on the shared
mux, wrapped by `handleRequest` with required method GET. -/
def GET (st : RouterState) (g : Nat) (pattern : String) (handlerId : Nat) :
    RouterState :=
  { st with
    routes := st.routes ++
      [((getGroup st g).pfx ++ pattern, ⟨"GET", g, handlerId⟩)] }

/-- `(g *Group) POST(pattern, h)`: as `GET` but with required method
POST. -/
def POST (st : RouterState) (g : Nat) (pattern : String) (handlerId : Nat) :
    RouterState :=
  { st with
    routes := st.routes ++
      [((getGroup st g).pfx ++ pattern, ⟨"POST", g, handlerId⟩)] }

/-- An incoming HTTP request, as far as the router inspects it. -/
structure Request where
  method : String
  path : String
deriving Repr, DecidableEq

/-- Observable invocation events of one request: a middleware ran, or the
final user handler ran. -/
inductive Ev where
  | mw (id : MWId)
  | handler (id : Nat)
deriving Repr, DecidableEq

/-- Outcome of dispatching one request: `status = some 404` when
`http.NotFound` answered (router-gated), `none` when the response was left
to the handler; plus the invocation trace. -/
structure Outcome where
  status : Option Nat
  events : List Ev
deriving Repr, DecidableEq

/-- `(g *Group) handleMiddleware(c)`: run the global chain in order, then
the group's own chain in order. -/
def handleMiddleware (st : RouterState) (g : Nat) : List Ev :=
  st.middle.map Ev.mw ++ (getGroup st g).middleware.map Ev.mw

/-- `(g *Group) handleRequest(h, method)`: on a method match build the
Context, run `handleMiddleware`, then the handler; otherwise
`http.NotFound`. -/
def handleRequest (st : RouterState) (e : RouteEntry) (req : Request) :
    Outcome :=
  if req.method = e.method then
    { status := none,
      events := handleMiddleware st e.groupId ++ [Ev.handler e.handlerId] }
  else
    { status := some 404, events := [] }

/-- Go `ServeMux` `pathMatch`: a pattern ending in "/" matches every path
it prefixes; any other pattern matches exactly; the empty pattern matches
nothing. -/
def pathMatch (pattern path : String) : Bool :=
  if pattern = "" then false
  else if goHasSuffix pattern "/" then goStartsWith path pattern
  else pattern = path

/-- Go `ServeMux` handler selection: among matching patterns the longest
one wins. -/
def findRoute (routes : List (String × RouteEntry)) (path : String) :
    Option (String × RouteEntry) :=
  routes.foldl
    (fun best pr =>
      if pathMatch pr.1 path then
        match best with
        | none => some pr
        | some b => if pr.1.length > b.1.length then some pr else best
      else best)
    none

/-- `ServeHTTP` for the whole router: select the handler registered for the
request path and run it; unmatched paths get the mux's 404. -/
def serve (st : RouterState) (req : Request) : Outcome :=
  match findRoute st.routes req.path with
  | some (_, e) => handleRequest st e req
  | none => { status := some 404, events := [] }

/-- Which response writer a handler invocation received from the `Gzip`
decorator: the raw `http.ResponseWriter`, or the `gzipResponseWriter`
wrapping a `gzip.Writer`. -/
inductive WriterKind where
  | original
  | gzipped
deriving Repr, DecidableEq

/-- Observable actions of the `Gzip` decorator, in execution order. -/
inductive GzEv where
  | setHeader (key value : String)
  | callHandler (w : WriterKind)
deriving Repr, DecidableEq

/-- `Gzip(handler)` applied to a request whose Accept-Encoding header is
`acceptEncoding`: set the cache header; when gzip is not accepted, run the
handler on the raw writer; then (fallthrough, no return) set the gzip
header and run the handler on the compressing writer. -/
def Gzip (acceptEncoding : String) : List GzEv :=
  [GzEv.setHeader "Cache-Control" "max-age:86400"] ++
  (if goContains acceptEncoding "gzip" then []
   else [GzEv.callHandler WriterKind.original]) ++
  [GzEv.setHeader "Content-Encoding" "gzip",
   GzEv.callHandler WriterKind.gzipped]

/-- Hex digit character for a value below 16 (lowercase, as Go `%x`). -/
def hexDigit (n : Nat) : Char :=
  if n < 10 then Char.ofNat (48 + n) else Char.ofNat (87 + n)

/-- Two lowercase hex digits of one byte. -/
def byteHex (b : Nat) : String :=
  String.mk [hexDigit (b / 16 % 16), hexDigit (b % 16)]

/-- Hex rendering of a byte sequence. -/
def bytesHex : List Nat → String
  | [] => ""
  | b :: t => byteHex b ++ bytesHex t

/-- A Go value handed to `json.Marshal`; `unsupported` stands for the
values (func, chan, complex, cyclic) on which marshalling errors. -/
inductive GoValue where
  | null
  | bool (b : Bool)
  | int (n : Int)
  | str (s : String)
  | arr (xs : List GoValue)
  | obj (fields : List (String × GoValue))
  | unsupported (desc : String)
deriving Repr

/-- Escaping of one character inside a JSON string, as Go's encoder does
it (with its default HTML escaping of angle brackets and ampersand). -/
def jsonEscapeChar (c : Char) : String :=
  if c = '"' then "\\\""
  else if c = '\\' then "\\\\"
  else if c = '\n' then "\\n"
  else if c = '\r' then "\\r"
  else if c = '\t' then "\\t"
  else if c = '<' then "\\u003c"
  else if c = '>' then "\\u003e"
  else if c = '&' then "\\u0026"
  else if c.toNat < 32 then "\\u00" ++ byteHex c.toNat
  else String.singleton c

/-- A JSON string literal: quoted and escaped. -/
def jsonQuote (s : String) : String :=
  "\"" ++ String.join (s.toList.map jsonEscapeChar) ++ "\""

mutual

/-- `json.Marshal`: the compact serialization, or `none` (a marshal error,
upon which Go returns nil data). -/
def marshalVal : GoValue → Option String
  | GoValue.null => some "null"
  | GoValue.bool true => some "true"
  | GoValue.bool false => some "false"
  | GoValue.int n => some (toString n)
  | GoValue.str s => some (jsonQuote s)
  | GoValue.arr xs =>
      match marshalList xs with
      | some parts => some ("[" ++ String.intercalate "," parts ++ "]")
      | none => none
  | GoValue.obj fs =>
      match marshalFields fs with
      | some parts =>
          some ("\x7b" ++ String.intercalate "," parts ++ "\x7d")
      | none => none
  | GoValue.unsupported _ => none

/-- Marshalling of the elements of a JSON array. -/
def marshalList : List GoValue → Option (List String)
  | [] => some []
  | x :: xs =>
      match marshalVal x, marshalList xs with
      | some s, some rest => some (s :: rest)
      | _, _ => none

/-- Marshalling of the fields of a JSON object, in field order. -/
def marshalFields : List (String × GoValue) → Option (List String)
  | [] => some []
  | (k, v) :: fs =>
      match marshalVal v, marshalFields fs with
      | some s, some rest => some ((jsonQuote k ++ ":" ++ s) :: rest)
      | _, _ => none

end

/-- The response writer as `Context.JSON` sees it: headers set so far, the
body bytes written so far, and the `logger.Error` sink. -/
structure RespState where
  headers : List (String × String)
  body : String
  errLog : List String
deriving Repr, DecidableEq

/-- A fresh response writer. -/
def RespState.empty : RespState :=
  { headers := [], body := "", errLog := [] }

/-- `(c *Context) JSON(data)`: marshal; on error only log (no return);
then set the JSON content type and write whatever data resulted (nil on
error). -/
def JSON (c : RespState) (data : GoValue) : RespState :=
  let enc := marshalVal data
  let c1 :=
    if enc.isNone then
      { c with errLog := c.errLog ++ ["JSON Marshal error"] }
    else c
  let c2 :=
    { c1 with
      headers := c1.headers ++ [("Content-Type", "application/json")] }
  { c2 with body := c2.body ++ enc.getD "" }

/-- A `Set-Cookie` value as the session helpers build it (the fields of
Go's `http.Cookie` that the router populates; times are nanoseconds, the
unit of Go's `time.Duration`). -/
structure Cookie where
  name : String
  value : String
  expires : Int
  maxAge : Int
  path : String
deriving Repr, DecidableEq

/-- One minute, in nanoseconds (Go `time.Minute`). -/
def minuteNs : Int := 60 * 1000000000

/-- `uuid.NewV4()` over 16 bytes of crypto-random entropy: set the version
nibble of byte 6 to 4 (`u[6] = u[6]&0x0f | 0x40`) and the RFC 4122 variant
bit of byte 8 (`u[8] = u[8]&0xbf | 0x80`, as the satori library does). -/
def randomValue (entropy : List Nat) : List Nat :=
  let withVersion :=
    entropy.set 6 ((entropy.getD 6 0) &&& 15 ||| 64)
  withVersion.set 8 ((withVersion.getD 8 0) &&& 191 ||| 128)

/-- `uuid.UUID.String()`: canonical 8-4-4-4-12 lowercase hex form. -/
def uuidString (u : List Nat) : String :=
  bytesHex (u.take 4) ++ "-" ++
  bytesHex ((u.drop 4).take 2) ++ "-" ++
  bytesHex ((u.drop 6).take 2) ++ "-" ++
  bytesHex ((u.drop 8).take 2) ++ "-" ++
  bytesHex (u.drop 10)

/-- `(c *Context) NewSession(name)` at wall-clock `now` with the entropy
the UUID generator draws: the cookie handed to `http.SetCookie`. -/
def NewSession (name : String) (now : Int) (entropy : List Nat) : Cookie :=
  { name := name
    value := uuidString (randomValue entropy)
    expires := now + 30 * minuteNs
    maxAge := 0
    path := "/" }

/-- `(c *Context) DeleteSession(name)` at wall-clock `now`: the cookie
handed to `http.SetCookie`. -/
def DeleteSession (name : String) (now : Int) : Cookie :=
  { name := name
    value := "deleted"
    expires := now
    maxAge := -1
    path := "/" }

/-! Concrete setup sequences used to instantiate the theorems below. -/

/-- Root router after `Use(A, B)` with global middleware ids 1 and 2. -/
def c1Setup : RouterState := Use New rootRef [1, 2]

/-- The group `Group("/g", C)` with group middleware id 3. -/
def c1Grp : RouterState × Nat := Group c1Setup "/g" [3]

/-- The scenario of the spec: global chain [1, 2], group "/g" with chain
[3], and `GET("/x", handler 7)` registered on the group. -/
def stC1 : RouterState := GET c1Grp.1 c1Grp.2 "/x" 7

/-- Root router after `Use(1)`. -/
def c3Setup : RouterState := Use New rootRef [1]

/-- Outer group "/a" with chain [2]. -/
def c3G1 : RouterState × Nat := Group c3Setup "/a" [2]

/-- Sub-group "/a/b" of the outer group, with its own chain [3]. -/
def c3G2 : RouterState × Nat := Group c3G1.1 "/a/b" [3]

/-- Nested-group scenario: `GET("/c", handler 9)` on the sub-group. -/
def stC3 : RouterState := GET c3G2.1 c3G2.2 "/c" 9

/-- Root router with `GET("/r", handler 4)` registered on the root. -/
def c10Root : RouterState := GET New rootRef "/r" 4

/-- A failed `Group("bad")` call (no leading slash) on that router. -/
def c10Bad : RouterState × Nat := Group c10Root "bad" []

/-- `Use(8)` called on the Group object the failed call returned. -/
def stC10 : RouterState := Use c10Bad.1 c10Bad.2 [8]

/-- The group object returned by a failed `Group("")` call on a fresh
router. -/
def c6Bad : RouterState × Nat := Group New "" []

/-- `Use(5)` called on that failed group object. -/
def stC6 : RouterState := Use c6Bad.1 c6Bad.2 [5]

/-! Theorems. -/

/-- A middleware id appears in the chain `handleMiddleware` runs exactly
when it is in the global chain or in the dispatching group's own chain. -/
theorem mem_handleMiddleware_iff (st : RouterState) (g : Nat) (x : MWId) :
    Ev.mw x ∈ handleMiddleware st g ↔
      x ∈ st.middle ∨ x ∈ (getGroup st g).middleware := by
  simp [handleMiddleware, List.mem_append, List.mem_map]

/-- C1: on a group with global chain [A, B] and group chain [C], a request
matching a route registered via GET or POST runs A, then B, then C, then
the handler, in that order, exactly once each; no middleware short-circuits
and the handler always follows. -/
theorem c1_chain_order (st : RouterState) (req : Request) (p : String)
    (e : RouteEntry) (A B C : MWId)
    (hfind : findRoute st.routes req.path = some (p, e))
    (_hreg : e.method = "GET" ∨ e.method = "POST")
    (hmethod : req.method = e.method)
    (hglob : st.middle = [A, B])
    (hgrp : (getGroup st e.groupId).middleware = [C]) :
    serve st req =
      { status := none,
        events := [Ev.mw A, Ev.mw B, Ev.mw C, Ev.handler e.handlerId] } := by
  simp [serve, hfind, handleRequest, hmethod, handleMiddleware, hglob, hgrp]

/-- C1 witness: the concrete scenario of the spec, global chain [1, 2],
group "/g" chain [3], GET route "/g/x" with handler 7. -/
theorem c1_chain_order_witness :
    serve stC1 { method := "GET", path := "/g/x" } =
      { status := none,
        events := [Ev.mw 1, Ev.mw 2, Ev.mw 3, Ev.handler 7] } :=
  c1_chain_order stC1 { method := "GET", path := "/g/x" } "/g/x"
    ⟨"GET", 1, 7⟩ 1 2 3 (by decide) (Or.inl rfl) rfl (by decide) (by decide)

/-- C2: a request reaching a registered route with the wrong HTTP method
gets the `http.NotFound` 404 and invokes no middleware and no handler. -/
theorem c2_wrong_method (st : RouterState) (req : Request) (p : String)
    (e : RouteEntry)
    (hfind : findRoute st.routes req.path = some (p, e))
    (_hreg : e.method = "GET" ∨ e.method = "POST")
    (hmethod : req.method ≠ e.method) :
    serve st req = { status := some 404, events := [] } := by
  simp [serve, hfind, handleRequest, hmethod]

/-- C2 witness: a POST to the GET route "/g/x" of the concrete scenario
yields the 404 outcome with an empty invocation trace. -/
theorem c2_wrong_method_witness :
    serve stC1 { method := "POST", path := "/g/x" } =
      { status := some 404, events := [] } :=
  c2_wrong_method stC1 { method := "POST", path := "/g/x" } "/g/x"
    ⟨"GET", 1, 7⟩ (by decide) (Or.inl rfl) (by decide)

/-- C3: dispatching a request runs only the global chain and the owning
group's own chain: a middleware id outside both (an ancestor group's chain,
or any other group's chain) never appears in the invocation trace. -/
theorem c3_scope_isolation (st : RouterState) (req : Request) (p : String)
    (e : RouteEntry) (x : MWId)
    (hfind : findRoute st.routes req.path = some (p, e))
    (hglob : x ∉ st.middle)
    (hown : x ∉ (getGroup st e.groupId).middleware) :
    Ev.mw x ∉ (serve st req).events := by
  by_cases hmethod : req.method = e.method
  · simp only [serve, hfind, handleRequest, hmethod, if_pos rfl]
    intro hmem
    rcases List.mem_append.mp hmem with hmid | hlast
    · rcases (mem_handleMiddleware_iff st e.groupId x).mp hmid with h | h
      · exact hglob h
      · exact hown h
    · simp at hlast
  · simp [serve, hfind, handleRequest, hmethod]

/-- C3 witness: in the nested scenario (global [1], outer group "/a" chain
[2], sub-group "/a/b" chain [3], GET "/a/b/c"), the parent group's
middleware 2 never runs for a request dispatched to the sub-group route. -/
theorem c3_scope_isolation_witness :
    Ev.mw 2 ∉ (serve stC3 { method := "GET", path := "/a/b/c" }).events :=
  c3_scope_isolation stC3 { method := "GET", path := "/a/b/c" } "/a/b/c"
    ⟨"GET", 2, 9⟩ 2 (by decide) (by decide) (by decide)

/-- C4: the `Gzip` decorator sets the 1-day cache header on every request;
on a request that does not advertise gzip it runs the wrapped handler on
the raw writer and then falls through, also setting the gzip content
encoding and running the handler a second time on the compressing
writer. -/
theorem c4_gzip_fallthrough (ae : String) :
    GzEv.setHeader "Cache-Control" "max-age:86400" ∈ Gzip ae ∧
    (goContains ae "gzip" = false →
      Gzip ae =
        [GzEv.setHeader "Cache-Control" "max-age:86400",
         GzEv.callHandler WriterKind.original,
         GzEv.setHeader "Content-Encoding" "gzip",
         GzEv.callHandler WriterKind.gzipped]) := by
  refine ⟨by simp [Gzip], fun h => by simp [Gzip, h]⟩

/-- C4 witness: a request accepting only identity encoding triggers the
double invocation, and the cache header is present. -/
theorem c4_gzip_fallthrough_witness :
    goContains "identity" "gzip" = false ∧
    Gzip "identity" =
      [GzEv.setHeader "Cache-Control" "max-age:86400",
       GzEv.callHandler WriterKind.original,
       GzEv.setHeader "Content-Encoding" "gzip",
       GzEv.callHandler WriterKind.gzipped] :=
  ⟨by decide, (c4_gzip_fallthrough "identity").2 (by decide)⟩

/-- The group reference a failed `Group` call returns dereferences to the
zero-valued Group: empty prefix, empty chain. -/
theorem getGroup_invalid (st : RouterState) (pattern : String)
    (hs : List MWId)
    (hbad : pattern = "" ∨ goStartsWith pattern "/" = false) :
    getGroup (Group st pattern hs).1 (Group st pattern hs).2 =
      { pfx := "", middleware := [] } := by
  have hcond : ¬(pattern ≠ "" ∧ goStartsWith pattern "/") := by
    rcases hbad with h | h <;> simp [h]
  simp [Group, hcond, getGroup, List.getD_eq_getElem?_getD,
    List.getElem?_concat_length]

/-- C5: an invalid group pattern (empty, or no leading slash) is reported
to the logging collaborator, nothing else in the router changes, the call
still returns a Group whose prefix and chain are empty, and a GET
registered on that group routes under the empty prefix (at its bare
pattern). -/
theorem c5_invalid_group (st : RouterState) (pattern : String)
    (hs : List MWId)
    (hbad : pattern = "" ∨ goStartsWith pattern "/" = false) :
    getGroup (Group st pattern hs).1 (Group st pattern hs).2 =
      { pfx := "", middleware := [] } ∧
    (Group st pattern hs).1.errLog = st.errLog ++ [groupErrorMsg] ∧
    (Group st pattern hs).1.middle = st.middle ∧
    (Group st pattern hs).1.routes = st.routes ∧
    ∀ rpat hid,
      (GET (Group st pattern hs).1 (Group st pattern hs).2 rpat hid).routes
        = st.routes ++ [(rpat, ⟨"GET", (Group st pattern hs).2, hid⟩)] := by
  have hcond : ¬(pattern ≠ "" ∧ goStartsWith pattern "/") := by
    rcases hbad with h | h <;> simp [h]
  have hget := getGroup_invalid st pattern hs hbad
  refine ⟨hget, ?_, ?_, ?_, ?_⟩
  · simp [Group, hcond]
  · simp [Group, hcond]
  · simp [Group, hcond]
  · intro rpat hid
    simp only [GET]
    rw [hget]
    simp [Group, hcond, String.empty_append]

/-- C5 witness: `Group("nope")` (missing leading slash) on a fresh router
logs the error, leaves the prefix empty, and a GET lands at the bare
pattern. -/
theorem c5_invalid_group_witness :
    getGroup (Group New "nope" [6]).1 (Group New "nope" [6]).2 =
      { pfx := "", middleware := [] } ∧
    (Group New "nope" [6]).1.errLog = [groupErrorMsg] ∧
    (GET (Group New "nope" [6]).1 (Group New "nope" [6]).2 "/p" 5).routes
      = [("/p", ⟨"GET", (Group New "nope" [6]).2, 5⟩)] := by
  have h := c5_invalid_group New "nope" [6] (Or.inr (by decide))
  exact ⟨h.1, h.2.1, h.2.2.2.2 "/p" 5⟩

/-- C6 counterexample: the Group object returned by the failed call
`Group("")` on a fresh router is not the root, yet `Use(5)` on it appends
to the global chain and leaves that group's own chain empty — so `Use` on
a non-root Group does not always append to that group's own chain. -/
theorem c6_counterexample :
    c6Bad.2 ≠ rootRef ∧
    stC6.middle = [5] ∧
    (getGroup stC6 c6Bad.2).middleware = [] := by
  refine ⟨by decide, by decide, by decide⟩

/-- C6 amended: `Use` tests prefix emptiness, not root identity.  On a
group whose prefix is empty (the root, or any group a rejected pattern
produced) it appends to the global chain in call order; on a group with a
non-empty prefix it appends to that group's own chain only, leaving the
global chain and every other group untouched. -/
theorem c6_use_prefix_test (st : RouterState) (g : Nat) (hs : List MWId)
    (hg : g < st.groups.length) :
    ((getGroup st g).pfx = "" →
      Use st g hs = { st with middle := st.middle ++ hs }) ∧
    ((getGroup st g).pfx ≠ "" →
      (Use st g hs).middle = st.middle ∧
      getGroup (Use st g hs) g =
        { pfx := (getGroup st g).pfx,
          middleware := (getGroup st g).middleware ++ hs } ∧
      ∀ g2, g2 ≠ g → getGroup (Use st g hs) g2 = getGroup st g2) := by
  constructor
  · intro h
    simp [Use, h]
  · intro h
    have hsome : st.groups[g]? = some st.groups[g] :=
      List.getElem?_eq_getElem hg
    have h' : ¬ st.groups[g].pfx = "" := by
      simpa [getGroup, List.getD_eq_getElem?_getD, hsome] using h
    refine ⟨?_, ?_, ?_⟩
    · simp [Use, getGroup, List.getD_eq_getElem?_getD, hsome, h']
    · simp [Use, getGroup, List.getD_eq_getElem?_getD, hsome, h',
        List.getElem?_set_self hg]
    · intro g2 hne
      simp [Use, getGroup, List.getD_eq_getElem?_getD, hsome, h',
        List.getElem?_set_ne (Ne.symm hne)]

/-- C6 witness: on a router with the valid group "/w" (chain [4]),
`Use(6)` on that group extends only its own chain, and `Use(6)` on the
root extends the global chain. -/
theorem c6_use_prefix_test_witness :
    (Use (Group New "/w" [4]).1 (Group New "/w" [4]).2 [6]).middle = [] ∧
    getGroup (Use (Group New "/w" [4]).1 (Group New "/w" [4]).2 [6])
        (Group New "/w" [4]).2 =
      { pfx := "/w", middleware := [4, 6] } ∧
    (Use (Group New "/w" [4]).1 rootRef [6]).middle = [6] := by
  have h2 := (c6_use_prefix_test (Group New "/w" [4]).1
    (Group New "/w" [4]).2 [6] (by decide)).2 (by decide)
  have hroot := (c6_use_prefix_test (Group New "/w" [4]).1 rootRef [6]
    (by decide)).1 (by decide)
  refine ⟨?_, ?_, ?_⟩
  · rw [h2.1]; rfl
  · rw [h2.2.1]; rfl
  · rw [hroot]; rfl

/-- Hex rendering of one byte is two characters long. -/
theorem byteHex_length (b : Nat) : (byteHex b).length = 2 := rfl

/-- Hex rendering of a byte list is two characters per byte. -/
theorem bytesHex_length (l : List Nat) :
    (bytesHex l).length = 2 * l.length := by
  induction l with
  | nil => rfl
  | cons b t ih =>
      simp [bytesHex, String.length_append, byteHex_length, ih]
      omega

/-- Length of the literal dash separator. -/
theorem dash_length : ("-" : String).length = 1 := rfl

/-- The canonical string of a 16-byte UUID is 36 characters
(8-4-4-4-12 plus four dashes). -/
theorem uuidString_length (u : List Nat) (h : u.length = 16) :
    (uuidString u).length = 36 := by
  simp [uuidString, String.length_append, bytesHex_length, h, dash_length,
    List.length_take, List.length_drop]

set_option maxRecDepth 4000 in
/-- C7: `NewSession(name)` at time `now`, drawing 16 bytes of
crypto-random entropy, sets a cookie named `name` whose value is the
canonical string of the freshly generated 128-bit UUID token, whose
expiration is exactly 30 minutes after creation, and whose path is "/";
the token is 16 bytes, each below 256, and its rendered value is the
36-character canonical form. -/
theorem c7_new_session (name : String) (now : Int) (entropy : List Nat)
    (hlen : entropy.length = 16) (hbytes : ∀ b ∈ entropy, b < 256) :
    NewSession name now entropy =
      { name := name
        value := uuidString (randomValue entropy)
        expires := now + 30 * minuteNs
        maxAge := 0
        path := "/" } ∧
    (randomValue entropy).length = 16 ∧
    (∀ b ∈ randomValue entropy, b < 256) ∧
    ((NewSession name now entropy).value).length = 36 := by
  have hrlen : (randomValue entropy).length = 16 := by
    simp [randomValue, hlen]
  refine ⟨rfl, hrlen, ?_, uuidString_length _ hrlen⟩
  intro b hb
  rcases List.mem_or_eq_of_mem_set hb with hb1 | rfl
  · rcases List.mem_or_eq_of_mem_set hb1 with hb2 | rfl
    · exact hbytes b hb2
    · have hx : entropy.getD 6 0 &&& 15 ≤ 15 := Nat.and_le_right
      have hall : ∀ y ≤ 15, y ||| 64 < 256 := by decide
      exact hall _ hx
  · have hx : (entropy.set 6 (entropy.getD 6 0 &&& 15 ||| 64)).getD 8 0
        &&& 191 ≤ 191 := Nat.and_le_right
    have hall : ∀ y ≤ 191, y ||| 128 < 256 := by decide
    exact hall _ hx

/-- C7 witness: a concrete entropy draw produces the expected v4 UUID
cookie with the 30-minute expiry and root path. -/
theorem c7_new_session_witness :
    NewSession "sid" 1000 [0, 1, 2, 3, 4, 5, 6, 7, 8, 9, 10, 11, 12, 13,
        14, 15] =
      { name := "sid"
        value := "00010203-0405-4607-8809-0a0b0c0d0e0f"
        expires := 1000 + 30 * minuteNs
        maxAge := 0
        path := "/" } ∧
    ("00010203-0405-4607-8809-0a0b0c0d0e0f" : String).length = 36 := by
  have h := c7_new_session "sid" 1000
    [0, 1, 2, 3, 4, 5, 6, 7, 8, 9, 10, 11, 12, 13, 14, 15]
    (by decide) (by decide)
  have hv :
      NewSession "sid" 1000 [0, 1, 2, 3, 4, 5, 6, 7, 8, 9, 10, 11, 12, 13,
          14, 15] =
        { name := "sid"
          value := "00010203-0405-4607-8809-0a0b0c0d0e0f"
          expires := 1000 + 30 * minuteNs
          maxAge := 0
          path := "/" } := h.1.trans (by rfl)
  have hlen36 := h.2.2.2
  rw [hv] at hlen36
  exact ⟨hv, hlen36⟩

/-- C8 counterexample: `DeleteSession` run at instant 0 emits a cookie
whose expiration equals 0 — the deletion instant itself, not a timestamp
strictly in the past — while its Max-Age is indeed -1. -/
theorem c8_counterexample :
    (DeleteSession "s" 0).expires = 0 ∧
    ¬ (DeleteSession "s" 0).expires < 0 ∧
    (DeleteSession "s" 0).maxAge = -1 := by
  refine ⟨rfl, by decide, rfl⟩

/-- C8 amended: `DeleteSession(name)` overwrites the named cookie with the
fixed value "deleted", an expiration timestamp equal to the deletion
instant (hence no later than the present, though not strictly in the
past), a negative Max-Age of -1 forcing client-side deletion, and path
"/". -/
theorem c8_delete_session (name : String) (now : Int) :
    DeleteSession name now =
      { name := name, value := "deleted", expires := now, maxAge := -1,
        path := "/" } ∧
    (DeleteSession name now).expires ≤ now ∧
    (DeleteSession name now).maxAge < 0 := by
  refine ⟨rfl, le_refl _, ?_⟩
  show (-1 : Int) < 0
  decide

/-- C9: `JSON(data)` always appends the `application/json` content type;
on successful marshalling it writes the compact serialization as the body,
touching no log; on a marshal failure it logs the error and still sets the
JSON content type and writes the (empty) payload that resulted, completing
the request rather than aborting. -/
theorem c9_writeJSON (c : RespState) (data : GoValue) :
    (JSON c data).headers =
      c.headers ++ [("Content-Type", "application/json")] ∧
    (∀ s, marshalVal data = some s →
      JSON c data =
        { headers := c.headers ++ [("Content-Type", "application/json")],
          body := c.body ++ s, errLog := c.errLog }) ∧
    (marshalVal data = none →
      JSON c data =
        { headers := c.headers ++ [("Content-Type", "application/json")],
          body := c.body,
          errLog := c.errLog ++ ["JSON Marshal error"] }) := by
  cases h : marshalVal data with
  | some s =>
      refine ⟨by simp [JSON, h], ?_, by simp [h]⟩
      intro s' hs'
      cases hs'
      simp [JSON, h]
  | none =>
      refine ⟨by simp [JSON, h], ?_, by simp [JSON, h]⟩
      intro s' hs'
      simp at hs'

/-- C9 witness: the spec's example, `writeJSON` of the object with field
"a" mapped to 1 yields the JSON content type and the compact body. -/
theorem c9_writeJSON_witness :
    marshalVal (GoValue.obj [("a", GoValue.int 1)]) =
      some "\x7b\"a\":1\x7d" ∧
    JSON RespState.empty (GoValue.obj [("a", GoValue.int 1)]) =
      { headers := [("Content-Type", "application/json")],
        body := "\x7b\"a\":1\x7d", errLog := [] } := by
  have h := (c9_writeJSON RespState.empty
    (GoValue.obj [("a", GoValue.int 1)])).2.1 "\x7b\"a\":1\x7d" (by rfl)
  exact ⟨by rfl, h.trans (by rfl)⟩

/-- C10: `Use` on the Group object returned by a rejected `Group(pattern)`
call appends to the GLOBAL chain (the root test is prefix emptiness): the
global chain becomes the old one plus the new middleware, no group's own
chain changes, and on any subsequent method-matching dispatched request —
whatever route it hits — each of those middleware ids appears in the
invocation trace. -/
theorem c10_use_on_failed_group (st : RouterState) (pattern : String)
    (hs0 hs : List MWId)
    (hbad : pattern = "" ∨ goStartsWith pattern "/" = false) :
    (Use (Group st pattern hs0).1 (Group st pattern hs0).2 hs).middle =
      st.middle ++ hs ∧
    (Use (Group st pattern hs0).1 (Group st pattern hs0).2 hs).groups =
      (Group st pattern hs0).1.groups ∧
    (∀ req p e,
      findRoute
          (Use (Group st pattern hs0).1 (Group st pattern hs0).2 hs).routes
          req.path = some (p, e) →
      req.method = e.method →
      ∀ m ∈ hs,
        Ev.mw m ∈
          (serve (Use (Group st pattern hs0).1 (Group st pattern hs0).2 hs)
            req).events) := by
  have hget := getGroup_invalid st pattern hs0 hbad
  have hpfx :
      (getGroup (Group st pattern hs0).1 (Group st pattern hs0).2).pfx
        = "" := by rw [hget]
  have hcond : ¬(pattern ≠ "" ∧ goStartsWith pattern "/") := by
    rcases hbad with h | h <;> simp [h]
  have hmid : (Group st pattern hs0).1.middle = st.middle := by
    simp [Group, hcond]
  have huse :
      Use (Group st pattern hs0).1 (Group st pattern hs0).2 hs =
        { (Group st pattern hs0).1 with
          middle := (Group st pattern hs0).1.middle ++ hs } := by
    simp [Use, hpfx]
  refine ⟨by rw [huse]; simp [hmid], by rw [huse], ?_⟩
  intro req p e hfind hm m hmem
  simp only [serve, hfind, handleRequest, hm, if_pos]
  refine List.mem_append.mpr (Or.inl ?_)
  refine (mem_handleMiddleware_iff _ _ _).mpr (Or.inl ?_)
  rw [huse, hmid]
  exact List.mem_append.mpr (Or.inr hmem)

/-- C10 witness: after the failed `Group("bad")` call on a router with
root route GET "/r", `Use(8)` on the returned group lands id 8 in the
global chain, and a GET to "/r" runs middleware 8. -/
theorem c10_use_on_failed_group_witness :
    stC10.middle = [8] ∧
    Ev.mw 8 ∈ (serve stC10 { method := "GET", path := "/r" }).events := by
  have h := c10_use_on_failed_group c10Root "bad" [] [8]
    (Or.inr (by decide))
  exact ⟨h.1.trans (by rfl),
    h.2.2 { method := "GET", path := "/r" } "/r" ⟨"GET", 0, 4⟩
      (by decide) (by decide) 8 (by decide)⟩

end Router
